import Mathlib

/-!
Shallow embedding of the gimbal positioning controller
(`src/template-project/src/subsystems/gimbal/gimbal_subsystem.cpp`).

Floating-point values of the source are modelled as real numbers; the
motor drivers, clock and status lights are modelled as an explicit
environment record read by `refresh`, and each `setDesiredOutput` call on
a motor driver is modelled as writing the corresponding
`yawDesiredOutput` / `pitchDesiredOutput` field of the state (the value
the driver currently holds).  The speed controller (`tap`'s SmoothPid) is
an external collaborator, so it is kept abstract: a state type `P`
together with a transition `run` (for `runController`) and an observation
`out` (for `getOutput`).
-/

open Real

namespace Gimbal

/-- Modelled from the spec: the configuration constants referenced as
`constants.…` by the subsystem live in a header that is not part of the
core sources, so they are kept as abstract real parameters
("all compile-time/static … error thresholds, speed limits/dead-bands,
scale factors, gravity-compensation scalar, level-angle reference"). -/
structure Constants where
  MAX_YAW_ERROR : ℝ
  YAW_MINIMUM_RADS : ℝ
  PITCH_MINIMUM_RADS : ℝ
  MOTOR_SPEED_FACTOR : ℝ
  MAX_YAW_SPEED : ℝ
  MIN_YAW_SPEED : ℝ
  MAX_PITCH_SPEED : ℝ
  MIN_PITCH_SPEED : ℝ
  YAW_SCALE : ℝ
  PITCH_SCALE : ℝ
  GRAVITY_COMPENSATION_SCALAR : ℝ
  LEVEL_ANGLE : ℝ

/-- Modelled from the spec: the DJI motor driver's encoder resolution
(counts per mechanical revolution); the spec's end-to-end scenario fixes
it at 8192. -/
def ENC_RESOLUTION : ℝ := 8192

/-- Modelled from the spec: `tap::algorithms::limitVal` saturates a value
to the given bounds ("values outside that are saturated to the bound, not
rejected"). -/
noncomputable def limitVal (v lo hi : ℝ) : ℝ :=
  if v < lo then lo else if hi < v then hi else v

/-- `GimbalSubsystem::wrappedEncoderValueToRadians`: converts a wrapped
encoder count to radians, `M_TWOPI * enc / ENC_RESOLUTION`. -/
noncomputable def wrappedEncoderValueToRadians (encoderValue : ℤ) : ℝ :=
  (2 * π * (encoderValue : ℝ)) / ENC_RESOLUTION

/-- The mutable state of `GimbalSubsystem`, together with the commands
currently held by the two motor drivers (`yawDesiredOutput`,
`pitchDesiredOutput`) and the two status lights set by `refresh`. -/
structure GimbalState (P : Type) where
  targetYaw : ℝ
  targetPitch : ℝ
  currentYaw : ℝ
  currentPitch : ℝ
  currentYawMotorSpeed : ℝ
  currentPitchMotorSpeed : ℝ
  yawError : ℝ
  pitchError : ℝ
  yawMotorOutput : ℝ
  pitchMotorOutput : ℝ
  pastTime : ℕ
  timeError : ℕ
  inputsFound : Bool
  yawDesiredOutput : ℝ
  pitchDesiredOutput : ℝ
  ledA : Bool
  ledH : Bool
  yawPid : P
  pitchPid : P

/-- One control cycle's view of the external collaborators: the monotonic
clock sample, each motor's online flag, wrapped encoder reading and
measured RPM. -/
structure Env where
  currentTime : ℕ
  yawOnline : Bool
  pitchOnline : Bool
  yawEncoder : ℕ
  pitchEncoder : ℕ
  yawRPM : ℝ
  pitchRPM : ℝ

variable {P : Type}

/-- The wrap-corrected yaw error of `updateYawPid` (lines 94-98):
`targetYaw - currentYaw`, with `2π` subtracted once if above
`MAX_YAW_ERROR` and added once if below `-MAX_YAW_ERROR`. -/
noncomputable def correctedYawError (c : Constants) (targetYaw currentYaw : ℝ) : ℝ :=
  let e := targetYaw - currentYaw
  if c.MAX_YAW_ERROR < e then e - 2 * π
  else if e < -c.MAX_YAW_ERROR then e + 2 * π
  else e

/-- `GimbalSubsystem::updateYawPid`.  Note that the final
`setDesiredOutput(yawMotorOutput)` of the source is commented out: the
else-branch computes `yawMotorOutput` but sends nothing to the driver. -/
noncomputable def updateYawPid (c : Constants) (run : P → ℝ → ℝ → ℝ → P) (out : P → ℝ)
    (env : Env) (s : GimbalState P) : GimbalState P :=
  let e := correctedYawError c s.targetYaw s.currentYaw
  let s1 : GimbalState P := { s with yawError := e }
  if -c.YAW_MINIMUM_RADS < e ∧ e < c.YAW_MINIMUM_RADS then
    { s1 with yawDesiredOutput := 0 }
  else
    let pid := run s1.yawPid (e * c.MOTOR_SPEED_FACTOR) env.yawRPM (s1.timeError : ℝ)
    let o := limitVal (out pid) (-c.MAX_YAW_SPEED) c.MAX_YAW_SPEED
    let o2 := if -c.MIN_YAW_SPEED < o ∧ o < c.MIN_YAW_SPEED then 0 else o
    { s1 with yawPid := pid, yawMotorOutput := o2 }

/-- `GimbalSubsystem::gravityCompensation`: the initial `M_PI / 2` value
of `limitAngle` is dead (immediately overwritten), leaving
`GRAVITY_COMPENSATION_SCALAR * cos(limitVal(currentPitch - LEVEL_ANGLE, -π, π))`. -/
noncomputable def gravityCompensation (c : Constants) (s : GimbalState P) : ℝ :=
  let limitAngle := limitVal (s.currentPitch - c.LEVEL_ANGLE) (-π) π
  c.GRAVITY_COMPENSATION_SCALAR * Real.cos limitAngle

/-- `GimbalSubsystem::updatePitchPid`: the speed controller runs
unconditionally; the error dead-zone only zeroes the clamped controller
output, gravity compensation is added afterwards, and the result is sent
to the driver only when outside the `MIN_PITCH_SPEED` dead-band. -/
noncomputable def updatePitchPid (c : Constants) (run : P → ℝ → ℝ → ℝ → P) (out : P → ℝ)
    (env : Env) (s : GimbalState P) : GimbalState P :=
  let e := s.targetPitch - s.currentPitch
  let pid := run s.pitchPid (e * c.MOTOR_SPEED_FACTOR) env.pitchRPM (s.timeError : ℝ)
  let o0 := if -c.PITCH_MINIMUM_RADS < e ∧ e < c.PITCH_MINIMUM_RADS then 0
            else limitVal (out pid) (-c.MAX_PITCH_SPEED) c.MAX_PITCH_SPEED
  let o := o0 + gravityCompensation c s
  if -c.MIN_PITCH_SPEED < o ∧ o < c.MIN_PITCH_SPEED then
    { s with pitchError := e, pitchPid := pid, pitchMotorOutput := 0 }
  else
    { s with pitchError := e, pitchPid := pid, pitchMotorOutput := o,
             pitchDesiredOutput := o }

/-- `GimbalSubsystem::refresh`: samples the clock (uint32 millisecond
arithmetic), drives the two status lights from the online flags, then —
only when `inputsFound` — senses and controls each axis whose motor is
online; otherwise snaps both targets to the current measured angles. -/
noncomputable def refresh (c : Constants) (run : P → ℝ → ℝ → ℝ → P) (out : P → ℝ)
    (env : Env) (s : GimbalState P) : GimbalState P :=
  let s0 : GimbalState P :=
    { s with timeError := (env.currentTime + 2 ^ 32 - s.pastTime) % 2 ^ 32,
             pastTime := env.currentTime,
             ledA := !env.yawOnline,
             ledH := !env.pitchOnline }
  if s0.inputsFound then
    let s1 : GimbalState P :=
      if env.yawOnline then
        updateYawPid c run out env
          { s0 with currentYawMotorSpeed := env.yawRPM,
                    currentYaw := wrappedEncoderValueToRadians env.yawEncoder }
      else s0
    if env.pitchOnline then
      updatePitchPid c run out env
        { s1 with currentPitchMotorSpeed := env.pitchRPM,
                  currentPitch := wrappedEncoderValueToRadians env.pitchEncoder }
    else s1
  else
    { s0 with targetPitch := s0.currentPitch, targetYaw := s0.currentYaw }

/-- Modelled from the spec: `setYawAngle` is declared in the header absent
from the core sources; per the spec the arbitration entry points write the
new target angle, so it is a plain setter of `targetYaw`. -/
def setYawAngle (s : GimbalState P) (a : ℝ) : GimbalState P :=
  { s with targetYaw := a }

/-- Modelled from the spec: `setPitchAngle`, a plain setter of
`targetPitch` (see `setYawAngle`). -/
def setPitchAngle (s : GimbalState P) (a : ℝ) : GimbalState P :=
  { s with targetPitch := a }

/-- `GimbalSubsystem::controllerInput`: accumulates scaled stick deltas
onto the previous targets and marks input as active. -/
def controllerInput (c : Constants) (yawInput pitchInput : ℝ) (s : GimbalState P) :
    GimbalState P :=
  let s1 := setYawAngle s (s.targetYaw + yawInput * c.YAW_SCALE)
  let s2 := setPitchAngle s1 (s1.targetPitch + pitchInput * c.PITCH_SCALE)
  { s2 with inputsFound := true }

/-- `GimbalSubsystem::cvInput`: clamps each offset to `[-2π, 2π]`, adds it
to the current measured angle, and marks input as active. -/
noncomputable def cvInput (yawInput pitchInput : ℝ) (s : GimbalState P) :
    GimbalState P :=
  let y := limitVal yawInput (-(2 * π)) (2 * π)
  let p := limitVal pitchInput (-(2 * π)) (2 * π)
  let s1 := setYawAngle s (s.currentYaw + y)
  let s2 := setPitchAngle s1 (s1.currentPitch + p)
  { s2 with inputsFound := true }

/-- `GimbalSubsystem::noInputs`: clears the active-input flag and
immediately commands zero output on both motors. -/
def noInputs (s : GimbalState P) : GimbalState P :=
  { s with inputsFound := false, pitchDesiredOutput := 0, yawDesiredOutput := 0 }

/-! ### Concrete fixtures used to evaluate the model at specific inputs -/

/-- A trivial concrete speed-controller transition (state `Unit`). -/
def wRun : Unit → ℝ → ℝ → ℝ → Unit := fun u _ _ _ => u

/-- A concrete speed-controller observation returning `0`. -/
noncomputable def wOut : Unit → ℝ := fun _ => 0

/-- A concrete speed-controller observation returning `5`. -/
noncomputable def cexOut : Unit → ℝ := fun _ => 5

/-- A concrete constant assignment with the yaw wrap threshold at `π`. -/
noncomputable def wConstants : Constants :=
  { MAX_YAW_ERROR := π, YAW_MINIMUM_RADS := 1, PITCH_MINIMUM_RADS := 1,
    MOTOR_SPEED_FACTOR := 1, MAX_YAW_SPEED := 10, MIN_YAW_SPEED := 1,
    MAX_PITCH_SPEED := 10, MIN_PITCH_SPEED := 1, YAW_SCALE := 1, PITCH_SCALE := 1,
    GRAVITY_COMPENSATION_SCALAR := 0, LEVEL_ANGLE := 0 }

/-- A concrete rational constant assignment with a nonzero gravity scalar. -/
noncomputable def wConstantsA : Constants :=
  { MAX_YAW_ERROR := 100, YAW_MINIMUM_RADS := 1, PITCH_MINIMUM_RADS := 1,
    MOTOR_SPEED_FACTOR := 1, MAX_YAW_SPEED := 10, MIN_YAW_SPEED := 1,
    MAX_PITCH_SPEED := 10, MIN_PITCH_SPEED := 1, YAW_SCALE := 1, PITCH_SCALE := 1,
    GRAVITY_COMPENSATION_SCALAR := 2, LEVEL_ANGLE := 0 }

/-- A concrete rational constant assignment with zero gravity scalar. -/
noncomputable def cexConstants : Constants :=
  { MAX_YAW_ERROR := 100, YAW_MINIMUM_RADS := 1, PITCH_MINIMUM_RADS := 1,
    MOTOR_SPEED_FACTOR := 1, MAX_YAW_SPEED := 10, MIN_YAW_SPEED := 1,
    MAX_PITCH_SPEED := 10, MIN_PITCH_SPEED := 1, YAW_SCALE := 1, PITCH_SCALE := 1,
    GRAVITY_COMPENSATION_SCALAR := 0, LEVEL_ANGLE := 0 }

/-- A concrete base state: all angles and outputs zero, input active. -/
noncomputable def wState : GimbalState Unit :=
  { targetYaw := 0, targetPitch := 0, currentYaw := 0, currentPitch := 0,
    currentYawMotorSpeed := 0, currentPitchMotorSpeed := 0, yawError := 0,
    pitchError := 0, yawMotorOutput := 0, pitchMotorOutput := 0, pastTime := 0,
    timeError := 0, inputsFound := true, yawDesiredOutput := 0,
    pitchDesiredOutput := 0, ledA := false, ledH := false,
    yawPid := (), pitchPid := () }

/-- `wState` with the active-input flag cleared. -/
noncomputable def wStateOff : GimbalState Unit :=
  { wState with inputsFound := false }

/-- A state with a pending pitch target, used to drive a nonzero pitch
command. -/
noncomputable def cexState2 : GimbalState Unit :=
  { wState with targetPitch := 5 }

/-- A state with no active input and a stale yaw target of `1`. -/
noncomputable def cexState4 : GimbalState Unit :=
  { wState with inputsFound := false, targetYaw := 1 }

/-- A state with no active input and a stale yaw target of `2`. -/
noncomputable def cexState8 : GimbalState Unit :=
  { wState with inputsFound := false, targetYaw := 2 }

/-- A cycle environment with both motors offline. -/
noncomputable def wEnv : Env :=
  { currentTime := 0, yawOnline := false, pitchOnline := false, yawEncoder := 0,
    pitchEncoder := 0, yawRPM := 0, pitchRPM := 0 }

/-- A cycle environment with only the pitch motor online. -/
noncomputable def cexEnvPitchOn : Env :=
  { currentTime := 0, yawOnline := false, pitchOnline := true, yawEncoder := 0,
    pitchEncoder := 0, yawRPM := 0, pitchRPM := 0 }

/-! ### Frame lemmas for the per-axis updates -/

lemma updateYawPid_yawError (c : Constants) (run : P → ℝ → ℝ → ℝ → P) (out : P → ℝ)
    (env : Env) (s : GimbalState P) :
    (updateYawPid c run out env s).yawError = correctedYawError c s.targetYaw s.currentYaw := by
  unfold updateYawPid
  dsimp only
  split <;> rfl

@[simp]
lemma updateYawPid_targetYaw (c : Constants) (run : P → ℝ → ℝ → ℝ → P) (out : P → ℝ)
    (env : Env) (s : GimbalState P) :
    (updateYawPid c run out env s).targetYaw = s.targetYaw := by
  unfold updateYawPid
  dsimp only
  split <;> rfl

@[simp]
lemma updateYawPid_currentYaw (c : Constants) (run : P → ℝ → ℝ → ℝ → P) (out : P → ℝ)
    (env : Env) (s : GimbalState P) :
    (updateYawPid c run out env s).currentYaw = s.currentYaw := by
  unfold updateYawPid
  dsimp only
  split <;> rfl

@[simp]
lemma updateYawPid_targetPitch (c : Constants) (run : P → ℝ → ℝ → ℝ → P) (out : P → ℝ)
    (env : Env) (s : GimbalState P) :
    (updateYawPid c run out env s).targetPitch = s.targetPitch := by
  unfold updateYawPid
  dsimp only
  split <;> rfl

@[simp]
lemma updateYawPid_currentPitch (c : Constants) (run : P → ℝ → ℝ → ℝ → P) (out : P → ℝ)
    (env : Env) (s : GimbalState P) :
    (updateYawPid c run out env s).currentPitch = s.currentPitch := by
  unfold updateYawPid
  dsimp only
  split <;> rfl

@[simp]
lemma updateYawPid_currentYawMotorSpeed (c : Constants) (run : P → ℝ → ℝ → ℝ → P) (out : P → ℝ)
    (env : Env) (s : GimbalState P) :
    (updateYawPid c run out env s).currentYawMotorSpeed = s.currentYawMotorSpeed := by
  unfold updateYawPid
  dsimp only
  split <;> rfl

@[simp]
lemma updateYawPid_currentPitchMotorSpeed (c : Constants) (run : P → ℝ → ℝ → ℝ → P) (out : P → ℝ)
    (env : Env) (s : GimbalState P) :
    (updateYawPid c run out env s).currentPitchMotorSpeed = s.currentPitchMotorSpeed := by
  unfold updateYawPid
  dsimp only
  split <;> rfl

@[simp]
lemma updateYawPid_pitchError (c : Constants) (run : P → ℝ → ℝ → ℝ → P) (out : P → ℝ)
    (env : Env) (s : GimbalState P) :
    (updateYawPid c run out env s).pitchError = s.pitchError := by
  unfold updateYawPid
  dsimp only
  split <;> rfl

@[simp]
lemma updateYawPid_pitchPid (c : Constants) (run : P → ℝ → ℝ → ℝ → P) (out : P → ℝ)
    (env : Env) (s : GimbalState P) :
    (updateYawPid c run out env s).pitchPid = s.pitchPid := by
  unfold updateYawPid
  dsimp only
  split <;> rfl

@[simp]
lemma updateYawPid_pitchDesiredOutput (c : Constants) (run : P → ℝ → ℝ → ℝ → P) (out : P → ℝ)
    (env : Env) (s : GimbalState P) :
    (updateYawPid c run out env s).pitchDesiredOutput = s.pitchDesiredOutput := by
  unfold updateYawPid
  dsimp only
  split <;> rfl

@[simp]
lemma updateYawPid_inputsFound (c : Constants) (run : P → ℝ → ℝ → ℝ → P) (out : P → ℝ)
    (env : Env) (s : GimbalState P) :
    (updateYawPid c run out env s).inputsFound = s.inputsFound := by
  unfold updateYawPid
  dsimp only
  split <;> rfl

@[simp]
lemma updatePitchPid_targetYaw (c : Constants) (run : P → ℝ → ℝ → ℝ → P) (out : P → ℝ)
    (env : Env) (s : GimbalState P) :
    (updatePitchPid c run out env s).targetYaw = s.targetYaw := by
  unfold updatePitchPid
  dsimp only
  split_ifs <;> rfl

@[simp]
lemma updatePitchPid_currentYaw (c : Constants) (run : P → ℝ → ℝ → ℝ → P) (out : P → ℝ)
    (env : Env) (s : GimbalState P) :
    (updatePitchPid c run out env s).currentYaw = s.currentYaw := by
  unfold updatePitchPid
  dsimp only
  split_ifs <;> rfl

@[simp]
lemma updatePitchPid_targetPitch (c : Constants) (run : P → ℝ → ℝ → ℝ → P) (out : P → ℝ)
    (env : Env) (s : GimbalState P) :
    (updatePitchPid c run out env s).targetPitch = s.targetPitch := by
  unfold updatePitchPid
  dsimp only
  split_ifs <;> rfl

@[simp]
lemma updatePitchPid_currentPitch (c : Constants) (run : P → ℝ → ℝ → ℝ → P) (out : P → ℝ)
    (env : Env) (s : GimbalState P) :
    (updatePitchPid c run out env s).currentPitch = s.currentPitch := by
  unfold updatePitchPid
  dsimp only
  split_ifs <;> rfl

@[simp]
lemma updatePitchPid_currentYawMotorSpeed (c : Constants) (run : P → ℝ → ℝ → ℝ → P) (out : P → ℝ)
    (env : Env) (s : GimbalState P) :
    (updatePitchPid c run out env s).currentYawMotorSpeed = s.currentYawMotorSpeed := by
  unfold updatePitchPid
  dsimp only
  split_ifs <;> rfl

@[simp]
lemma updatePitchPid_currentPitchMotorSpeed (c : Constants) (run : P → ℝ → ℝ → ℝ → P) (out : P → ℝ)
    (env : Env) (s : GimbalState P) :
    (updatePitchPid c run out env s).currentPitchMotorSpeed = s.currentPitchMotorSpeed := by
  unfold updatePitchPid
  dsimp only
  split_ifs <;> rfl

@[simp]
lemma updatePitchPid_yawError (c : Constants) (run : P → ℝ → ℝ → ℝ → P) (out : P → ℝ)
    (env : Env) (s : GimbalState P) :
    (updatePitchPid c run out env s).yawError = s.yawError := by
  unfold updatePitchPid
  dsimp only
  split_ifs <;> rfl

@[simp]
lemma updatePitchPid_yawPid (c : Constants) (run : P → ℝ → ℝ → ℝ → P) (out : P → ℝ)
    (env : Env) (s : GimbalState P) :
    (updatePitchPid c run out env s).yawPid = s.yawPid := by
  unfold updatePitchPid
  dsimp only
  split_ifs <;> rfl

@[simp]
lemma updatePitchPid_yawMotorOutput (c : Constants) (run : P → ℝ → ℝ → ℝ → P) (out : P → ℝ)
    (env : Env) (s : GimbalState P) :
    (updatePitchPid c run out env s).yawMotorOutput = s.yawMotorOutput := by
  unfold updatePitchPid
  dsimp only
  split_ifs <;> rfl

@[simp]
lemma updatePitchPid_yawDesiredOutput (c : Constants) (run : P → ℝ → ℝ → ℝ → P) (out : P → ℝ)
    (env : Env) (s : GimbalState P) :
    (updatePitchPid c run out env s).yawDesiredOutput = s.yawDesiredOutput := by
  unfold updatePitchPid
  dsimp only
  split_ifs <;> rfl

@[simp]
lemma updatePitchPid_inputsFound (c : Constants) (run : P → ℝ → ℝ → ℝ → P) (out : P → ℝ)
    (env : Env) (s : GimbalState P) :
    (updatePitchPid c run out env s).inputsFound = s.inputsFound := by
  unfold updatePitchPid
  dsimp only
  split_ifs <;> rfl

@[simp]
lemma updatePitchPid_pitchError (c : Constants) (run : P → ℝ → ℝ → ℝ → P) (out : P → ℝ)
    (env : Env) (s : GimbalState P) :
    (updatePitchPid c run out env s).pitchError = s.targetPitch - s.currentPitch := by
  unfold updatePitchPid
  dsimp only
  split_ifs <;> rfl

/-! ### Claim theorems -/

/-- C3: no-input stability — after `noInputs()` followed by one
`refresh()` with no intervening input call, `targetYaw = currentYaw`,
`targetPitch = currentPitch`, and both motor drivers hold a zero
command (the one issued by `noInputs`). -/
theorem noInput_stability (c : Constants) (run : P → ℝ → ℝ → ℝ → P) (out : P → ℝ)
    (env : Env) (s : GimbalState P) :
    (refresh c run out env (noInputs s)).targetYaw =
      (refresh c run out env (noInputs s)).currentYaw ∧
    (refresh c run out env (noInputs s)).targetPitch =
      (refresh c run out env (noInputs s)).currentPitch ∧
    (refresh c run out env (noInputs s)).yawDesiredOutput = 0 ∧
    (refresh c run out env (noInputs s)).pitchDesiredOutput = 0 := by
  simp [refresh, noInputs]

/-- C5: vision relativity — `cvInput(o, p)` sets `targetYaw` to
`currentYaw + clamp(o, -2π, 2π)` and `targetPitch` to
`currentPitch + clamp(p, -2π, 2π)` (offsets outside the range are
saturated by `limitVal`), independent of the prior targets, and raises
the active-input flag. -/
theorem cvInput_relativity (o p : ℝ) (s : GimbalState P) :
    (cvInput o p s).targetYaw = s.currentYaw + limitVal o (-(2 * π)) (2 * π) ∧
    (cvInput o p s).targetPitch = s.currentPitch + limitVal p (-(2 * π)) (2 * π) ∧
    (cvInput o p s).inputsFound = true := by
  simp [cvInput, setYawAngle, setPitchAngle]

/-- C6: manual accumulation — `controllerInput` adds each delta times the
axis scale to the previous target, so two sequential calls with the same
`d` and no intervening `refresh` accumulate `2 * d * YAW_SCALE`. -/
theorem controllerInput_accumulation (c : Constants) (y p d : ℝ) (s : GimbalState P) :
    (controllerInput c y p s).targetYaw = s.targetYaw + y * c.YAW_SCALE ∧
    (controllerInput c y p s).targetPitch = s.targetPitch + p * c.PITCH_SCALE ∧
    (controllerInput c d 0 (controllerInput c d 0 s)).targetYaw =
      s.targetYaw + 2 * d * c.YAW_SCALE := by
  refine ⟨rfl, rfl, ?_⟩
  show s.targetYaw + d * c.YAW_SCALE + d * c.YAW_SCALE = s.targetYaw + 2 * d * c.YAW_SCALE
  ring

/-- C7: yaw dead-zone — when the corrected yaw error lies strictly inside
`(-YAW_MINIMUM_RADS, YAW_MINIMUM_RADS)`, `updateYawPid` commands exactly
zero to the yaw motor and skips the speed controller (its state and the
stored output are untouched), regardless of prior controller state. -/
theorem yaw_deadzone_zero (c : Constants) (run : P → ℝ → ℝ → ℝ → P) (out : P → ℝ)
    (env : Env) (s : GimbalState P)
    (h1 : -c.YAW_MINIMUM_RADS < correctedYawError c s.targetYaw s.currentYaw)
    (h2 : correctedYawError c s.targetYaw s.currentYaw < c.YAW_MINIMUM_RADS) :
    (updateYawPid c run out env s).yawDesiredOutput = 0 ∧
    (updateYawPid c run out env s).yawPid = s.yawPid ∧
    (updateYawPid c run out env s).yawMotorOutput = s.yawMotorOutput := by
  unfold updateYawPid
  dsimp only
  rw [if_pos ⟨h1, h2⟩]
  exact ⟨rfl, rfl, rfl⟩

/-- C9: gravity feedforward — the compensation term is exactly
`GRAVITY_COMPENSATION_SCALAR * cos(limitVal(currentPitch - LEVEL_ANGLE, -π, π))`,
and (for the nonnegative configured scalar the spec's interval presumes)
it lies in `[-GRAVITY_COMPENSATION_SCALAR, GRAVITY_COMPENSATION_SCALAR]`
for every `currentPitch`. -/
theorem gravityCompensation_bound (c : Constants) (s : GimbalState P) :
    gravityCompensation c s =
      c.GRAVITY_COMPENSATION_SCALAR *
        Real.cos (limitVal (s.currentPitch - c.LEVEL_ANGLE) (-π) π) ∧
    (0 ≤ c.GRAVITY_COMPENSATION_SCALAR →
      -c.GRAVITY_COMPENSATION_SCALAR ≤ gravityCompensation c s ∧
      gravityCompensation c s ≤ c.GRAVITY_COMPENSATION_SCALAR) := by
  refine ⟨rfl, fun hg => ?_⟩
  have h1 := Real.neg_one_le_cos (limitVal (s.currentPitch - c.LEVEL_ANGLE) (-π) π)
  have h2 := Real.cos_le_one (limitVal (s.currentPitch - c.LEVEL_ANGLE) (-π) π)
  have hl := mul_le_mul_of_nonneg_left h1 hg
  have hr := mul_le_mul_of_nonneg_left h2 hg
  unfold gravityCompensation
  dsimp only
  constructor <;> nlinarith

/-- C10: implicit pitch dead-zone edge case — when the pitch error is
strictly inside `(-PITCH_MINIMUM_RADS, PITCH_MINIMUM_RADS)`,
`updatePitchPid` still runs the speed controller, zeroes only the clamped
controller output before adding gravity compensation, and, whenever the
gravity term's magnitude is at least `MIN_PITCH_SPEED`, commands the pitch
motor the gravity term alone. -/
theorem pitch_deadzone_gravity (c : Constants) (run : P → ℝ → ℝ → ℝ → P) (out : P → ℝ)
    (env : Env) (s : GimbalState P)
    (h1 : -c.PITCH_MINIMUM_RADS < s.targetPitch - s.currentPitch)
    (h2 : s.targetPitch - s.currentPitch < c.PITCH_MINIMUM_RADS) :
    (updatePitchPid c run out env s).pitchPid =
      run s.pitchPid ((s.targetPitch - s.currentPitch) * c.MOTOR_SPEED_FACTOR)
        env.pitchRPM (s.timeError : ℝ) ∧
    (c.MIN_PITCH_SPEED ≤ |gravityCompensation c s| →
      (updatePitchPid c run out env s).pitchDesiredOutput = gravityCompensation c s ∧
      (updatePitchPid c run out env s).pitchMotorOutput = gravityCompensation c s) := by
  unfold updatePitchPid
  dsimp only
  have hcond : -c.PITCH_MINIMUM_RADS < s.targetPitch - s.currentPitch ∧
      s.targetPitch - s.currentPitch < c.PITCH_MINIMUM_RADS := ⟨h1, h2⟩
  rw [if_pos hcond]
  constructor
  · split_ifs <;> rfl
  · intro hg
    have hout : ¬(-c.MIN_PITCH_SPEED < 0 + gravityCompensation c s ∧
        0 + gravityCompensation c s < c.MIN_PITCH_SPEED) := by
      rcases le_abs.mp hg with h | h
      · rintro ⟨-, hb⟩
        linarith
      · rintro ⟨ha, -⟩
        linarith
    rw [if_neg hout]
    exact ⟨zero_add _, zero_add _⟩

/-- C1: yaw wrap correctness — for `currentYaw`, `targetYaw` in `[0, 2π)`
and the wrap threshold configured at `π` (the spec configures
`MAX_YAW_ERROR` near `π`), the corrected error computed by `updateYawPid`
has magnitude at most `MAX_YAW_ERROR`, differs from the raw error by an
integer multiple of `2π`, and its magnitude is the shorter angular
distance between the two angles. -/
theorem yaw_wrap_correct (c : Constants) (run : P → ℝ → ℝ → ℝ → P) (out : P → ℝ)
    (env : Env) (s : GimbalState P)
    (hcy0 : 0 ≤ s.currentYaw) (hcy1 : s.currentYaw < 2 * π)
    (hty0 : 0 ≤ s.targetYaw) (hty1 : s.targetYaw < 2 * π)
    (hM : c.MAX_YAW_ERROR = π) :
    |(updateYawPid c run out env s).yawError| ≤ c.MAX_YAW_ERROR ∧
    (∃ k : ℤ, (updateYawPid c run out env s).yawError =
      (s.targetYaw - s.currentYaw) + 2 * π * (k : ℝ)) ∧
    |(updateYawPid c run out env s).yawError| =
      min |s.targetYaw - s.currentYaw| (2 * π - |s.targetYaw - s.currentYaw|) := by
  rw [updateYawPid_yawError]
  unfold correctedYawError
  dsimp only
  rw [hM]
  have hpi := Real.pi_pos
  have h2pi : s.targetYaw - s.currentYaw < 2 * π := by linarith
  have hm2pi : -(2 * π) < s.targetYaw - s.currentYaw := by linarith
  split_ifs with hgt hlt
  · refine ⟨?_, ⟨-1, by push_cast; ring⟩, ?_⟩
    · rw [abs_of_nonpos (by linarith)]
      linarith
    · rw [abs_of_nonpos (by linarith), abs_of_pos (by linarith),
        min_eq_right (by linarith)]
      ring
  · refine ⟨?_, ⟨1, by push_cast; ring⟩, ?_⟩
    · rw [abs_of_nonneg (by linarith)]
      linarith
    · rw [abs_of_nonneg (by linarith), abs_of_neg (by linarith),
        min_eq_right (by linarith)]
      ring
  · push_neg at hgt hlt
    have habs : |s.targetYaw - s.currentYaw| ≤ π :=
      abs_le.mpr ⟨by linarith, hgt⟩
    exact ⟨habs, ⟨0, by push_cast; ring⟩, (min_eq_left (by linarith)).symm⟩

lemma deadband_escape_abs (m v : ℝ) (h : ¬(-m < v ∧ v < m)) : m ≤ |v| := by
  rcases not_and_or.mp h with h | h
  · have h2 := not_lt.mp h
    have h3 : m ≤ -v := by linarith
    exact h3.trans (neg_le_abs v)
  · exact (not_lt.mp h).trans (le_abs_self v)

/-- C2 (amended): under any of the three conditions — motor offline,
`hasActiveInput` false, or output inside the dead-band — the cycle issues
no new nonzero command; the driver keeps its previously commanded value
rather than being zeroed.  Concretely: when input is absent or an axis's
motor is offline, `refresh` leaves that axis's driver command unchanged;
`updatePitchPid` either leaves the pitch command unchanged (the dead-band
case included) or issues one of magnitude at least `MIN_PITCH_SPEED`; and
`updateYawPid` only ever issues a zero command (its computed output is
never sent, the source's final send being commented out). -/
theorem motor_command_conditions (c : Constants) (run : P → ℝ → ℝ → ℝ → P) (out : P → ℝ)
    (env : Env) (s : GimbalState P) :
    (s.inputsFound = false →
      (refresh c run out env s).yawDesiredOutput = s.yawDesiredOutput ∧
      (refresh c run out env s).pitchDesiredOutput = s.pitchDesiredOutput) ∧
    (env.yawOnline = false →
      (refresh c run out env s).yawDesiredOutput = s.yawDesiredOutput) ∧
    (env.pitchOnline = false →
      (refresh c run out env s).pitchDesiredOutput = s.pitchDesiredOutput) ∧
    ((updatePitchPid c run out env s).pitchDesiredOutput = s.pitchDesiredOutput ∨
      c.MIN_PITCH_SPEED ≤ |(updatePitchPid c run out env s).pitchDesiredOutput|) ∧
    ((updateYawPid c run out env s).yawDesiredOutput = 0 ∨
      (updateYawPid c run out env s).yawDesiredOutput = s.yawDesiredOutput) := by
  refine ⟨fun h => ?_, fun h => ?_, fun h => ?_, ?_, ?_⟩
  · simp [refresh, h]
  · cases hin : s.inputsFound <;> cases hp : env.pitchOnline <;>
      simp [refresh, h, hin, hp]
  · cases hin : s.inputsFound <;> cases hy : env.yawOnline <;>
      simp [refresh, h, hin, hy]
  · unfold updatePitchPid
    dsimp only
    by_cases hb : -c.MIN_PITCH_SPEED <
        (if -c.PITCH_MINIMUM_RADS < s.targetPitch - s.currentPitch ∧
            s.targetPitch - s.currentPitch < c.PITCH_MINIMUM_RADS then 0
          else limitVal
            (out (run s.pitchPid ((s.targetPitch - s.currentPitch) * c.MOTOR_SPEED_FACTOR)
              env.pitchRPM (s.timeError : ℝ)))
            (-c.MAX_PITCH_SPEED) c.MAX_PITCH_SPEED) + gravityCompensation c s ∧
        (if -c.PITCH_MINIMUM_RADS < s.targetPitch - s.currentPitch ∧
            s.targetPitch - s.currentPitch < c.PITCH_MINIMUM_RADS then 0
          else limitVal
            (out (run s.pitchPid ((s.targetPitch - s.currentPitch) * c.MOTOR_SPEED_FACTOR)
              env.pitchRPM (s.timeError : ℝ)))
            (-c.MAX_PITCH_SPEED) c.MAX_PITCH_SPEED) + gravityCompensation c s <
          c.MIN_PITCH_SPEED
    · rw [if_pos hb]
      exact Or.inl rfl
    · rw [if_neg hb]
      exact Or.inr (deadband_escape_abs _ _ hb)
  · unfold updateYawPid
    dsimp only
    split
    · exact Or.inl rfl
    · exact Or.inr rfl

/-- C4 (amended): while `hasActiveInput` is false the targets are not
frozen at their old values; instead each `refresh` snaps them to the
current measured angles.  Since sensing is skipped while the flag is
false, the current angles do not change, so the targets are fixed at the
current angles from the first such `refresh` on. -/
theorem noActiveInput_targets_track (c : Constants) (run : P → ℝ → ℝ → ℝ → P) (out : P → ℝ)
    (env : Env) (s : GimbalState P) (h : s.inputsFound = false) :
    (refresh c run out env s).targetYaw = s.currentYaw ∧
    (refresh c run out env s).targetPitch = s.currentPitch ∧
    (refresh c run out env s).currentYaw = s.currentYaw ∧
    (refresh c run out env s).currentPitch = s.currentPitch ∧
    ∀ env2 : Env,
      (refresh c run out env2 (refresh c run out env s)).targetYaw =
        (refresh c run out env s).targetYaw ∧
      (refresh c run out env2 (refresh c run out env s)).targetPitch =
        (refresh c run out env s).targetPitch := by
  refine ⟨?_, ?_, ?_, ?_, fun env2 => ⟨?_, ?_⟩⟩ <;> simp [refresh, h]

/-- C8 (amended): offline isolation holds provided `hasActiveInput` is
true — if the yaw motor is offline during `refresh()`, `currentYaw` and
`targetYaw` are unchanged while the pitch axis senses (fresh encoder
conversion, fresh RPM) and recomputes its error normally when the pitch
motor is online; and symmetrically.  (Without active input, `refresh`
instead snaps both targets to the current angles.) -/
theorem offline_isolation (c : Constants) (run : P → ℝ → ℝ → ℝ → P) (out : P → ℝ)
    (env : Env) (s : GimbalState P) (hin : s.inputsFound = true) :
    (env.yawOnline = false →
      (refresh c run out env s).currentYaw = s.currentYaw ∧
      (refresh c run out env s).targetYaw = s.targetYaw ∧
      (env.pitchOnline = true →
        (refresh c run out env s).currentPitch =
          wrappedEncoderValueToRadians env.pitchEncoder ∧
        (refresh c run out env s).pitchError =
          s.targetPitch - wrappedEncoderValueToRadians env.pitchEncoder ∧
        (refresh c run out env s).currentPitchMotorSpeed = env.pitchRPM)) ∧
    (env.pitchOnline = false →
      (refresh c run out env s).currentPitch = s.currentPitch ∧
      (refresh c run out env s).targetPitch = s.targetPitch ∧
      (env.yawOnline = true →
        (refresh c run out env s).currentYaw =
          wrappedEncoderValueToRadians env.yawEncoder ∧
        (refresh c run out env s).yawError =
          correctedYawError c s.targetYaw (wrappedEncoderValueToRadians env.yawEncoder) ∧
        (refresh c run out env s).currentYawMotorSpeed = env.yawRPM)) := by
  constructor
  · intro hy
    cases hp : env.pitchOnline <;>
      simp [refresh, hin, hy, hp]
  · intro hp
    cases hy : env.yawOnline <;>
      simp [refresh, hin, hy, hp, updateYawPid_yawError]

/-! ### Witnesses and counterexamples at concrete inputs -/

lemma correctedYawErrorA_eval :
    correctedYawError wConstantsA wState.targetYaw wState.currentYaw = 0 := by
  norm_num [correctedYawError, wConstantsA, wState]

lemma gravityCompensationA_eval : gravityCompensation wConstantsA wState = 2 := by
  have hpi := Real.pi_pos
  have h0 : limitVal (wState.currentPitch - wConstantsA.LEVEL_ANGLE) (-π) π = 0 := by
    unfold limitVal wConstantsA wState
    dsimp only
    split_ifs with ha hb
    · exfalso
      linarith
    · exfalso
      linarith
    · norm_num
  unfold gravityCompensation
  dsimp only
  rw [h0, Real.cos_zero]
  norm_num [wConstantsA]

/-- Witness for C1 at `currentYaw = targetYaw = 0`, `MAX_YAW_ERROR = π`. -/
theorem yaw_wrap_correct_witness :
    |(updateYawPid wConstants wRun wOut wEnv wState).yawError| ≤
      wConstants.MAX_YAW_ERROR :=
  (yaw_wrap_correct wConstants wRun wOut wEnv wState (le_refl 0) Real.two_pi_pos
    (le_refl 0) Real.two_pi_pos rfl).1

/-- Witness for C7 at a zero corrected error inside the dead-zone. -/
theorem yaw_deadzone_zero_witness :
    (updateYawPid wConstantsA wRun wOut wEnv wState).yawDesiredOutput = 0 :=
  (yaw_deadzone_zero wConstantsA wRun wOut wEnv wState
    (by rw [correctedYawErrorA_eval]; norm_num [wConstantsA])
    (by rw [correctedYawErrorA_eval]; norm_num [wConstantsA])).1

/-- Witness for C9 with the nonnegative scalar `2`. -/
theorem gravityCompensation_bound_witness :
    -wConstantsA.GRAVITY_COMPENSATION_SCALAR ≤ gravityCompensation wConstantsA wState ∧
    gravityCompensation wConstantsA wState ≤ wConstantsA.GRAVITY_COMPENSATION_SCALAR :=
  (gravityCompensation_bound wConstantsA wState).2 (by norm_num [wConstantsA])

/-- Witness for C10: inside the pitch dead-zone with gravity term `2` and
`MIN_PITCH_SPEED = 1`, the commanded value is the gravity term. -/
theorem pitch_deadzone_gravity_witness :
    (updatePitchPid wConstantsA wRun wOut wEnv wState).pitchDesiredOutput =
      gravityCompensation wConstantsA wState :=
  ((pitch_deadzone_gravity wConstantsA wRun wOut wEnv wState
    (by norm_num [wConstantsA, wState]) (by norm_num [wConstantsA, wState])).2
    (by rw [gravityCompensationA_eval]; norm_num [wConstantsA])).1

/-- Witness for the amended C2: a cycle with the yaw motor offline leaves
the yaw driver command unchanged. -/
theorem motor_command_conditions_witness :
    (refresh wConstantsA wRun wOut wEnv wState).yawDesiredOutput =
      wState.yawDesiredOutput :=
  (motor_command_conditions wConstantsA wRun wOut wEnv wState).2.1 rfl

/-- Witness for the amended C4 at a concrete no-input state. -/
theorem noActiveInput_targets_track_witness :
    (refresh cexConstants wRun wOut wEnv wStateOff).targetYaw =
      wStateOff.currentYaw :=
  (noActiveInput_targets_track cexConstants wRun wOut wEnv wStateOff rfl).1

/-- Witness for the amended C8: with active input and yaw offline,
`currentYaw` is unchanged by the cycle. -/
theorem offline_isolation_witness :
    (refresh cexConstants wRun wOut wEnv wState).currentYaw = wState.currentYaw :=
  ((offline_isolation cexConstants wRun wOut wEnv wState rfl).1 rfl).1

/-- Counterexample to C2 as stated: a first cycle (input active, pitch
online, pitch error `5`) sends the pitch driver a nonzero command; a
second cycle with the pitch motor offline leaves that nonzero command in
the driver, so the output held while the motor reports offline is not
zero. -/
theorem motor_zero_invariant_cex :
    wEnv.pitchOnline = false ∧
    (refresh cexConstants wRun cexOut wEnv
        (refresh cexConstants wRun cexOut cexEnvPitchOn cexState2)).pitchDesiredOutput ≠ 0 := by
  refine ⟨rfl, ?_⟩
  norm_num [refresh, updatePitchPid, gravityCompensation, limitVal,
    wrappedEncoderValueToRadians, ENC_RESOLUTION, cexConstants, cexState2, wState,
    cexEnvPitchOn, wEnv, cexOut, wRun]

/-- Counterexample to C4 as stated: with `hasActiveInput` false and a
stale target `1` over a current angle `0`, `refresh` changes `targetYaw`
— the targets are not frozen. -/
theorem target_freeze_cex :
    cexState4.inputsFound = false ∧
    (refresh cexConstants wRun wOut wEnv cexState4).targetYaw ≠
      cexState4.targetYaw := by
  refine ⟨rfl, ?_⟩
  norm_num [refresh, cexState4, wState]

/-- Counterexample to C8 as stated: the yaw motor reports offline during
the call, yet `refresh` changes `targetYaw` (from the stale `2` to `0`),
because `hasActiveInput` is false — the claim omits that precondition. -/
theorem offline_isolation_cex :
    cexEnvPitchOn.yawOnline = false ∧
    (refresh cexConstants wRun wOut cexEnvPitchOn cexState8).targetYaw ≠
      cexState8.targetYaw := by
  refine ⟨rfl, ?_⟩
  norm_num [refresh, cexState8, wState]

end Gimbal
